import Mathlib

/-!
# Verification of the GitHub device-code authentication scripts

Shallow embedding of the two Python scripts of this repository,
`src/device_auth.py` and `src/device_code_flow.py`, and proofs about their
polling loops and whole-flow behaviour.

Modelling conventions:
* An HTTP response is modelled by its status code together with the parsed
  JSON fields the scripts actually read (each an `Option`, `none` meaning the
  field is absent from the JSON object) and its raw text `body`
  (`response.text`), which the scripts only use in error messages.
* A run of the token-polling loop is driven by a finite script
  `List TokenResponse` of token-endpoint responses, one consumed per
  iteration; an exhausted script yields the artificial outcome
  `PollResult.exhausted` (the real loop would simply keep polling).
* `time.sleep(interval)` is recorded as the ghost trace of slept intervals,
  one entry per loop iteration (the sleep happens at the top of the loop,
  before the request, in both files).
* A Python `KeyError` from an unguarded `data["k"]` lookup, and `sys.exit(1)`
  or an uncaught exception, are modelled as structured terminal outcomes.
-/

/-- Parsed JSON body and status of one token-endpoint response, restricted to
the fields the scripts read (`error`, `error_description`, `access_token`),
plus the raw `response.text` used in error messages. -/
structure TokenResponse where
  status : Nat
  body : String
  error : Option String
  error_description : Option String
  access_token : Option String
deriving DecidableEq

/-- Parsed JSON body and status of the device-code response, restricted to the
fields the scripts read. -/
structure DeviceCodeResponse where
  status : Nat
  body : String
  device_code : Option String
  user_code : Option String
  verification_uri : Option String
  verification_uri_complete : Option String
  expires_in : Option Int
  interval : Option Int
deriving DecidableEq

/-- Status, raw body, and the `login` field of the identity-verification
response (`GET /user`). -/
structure UserResponse where
  status : Nat
  body : String
  login : Option String
deriving DecidableEq

/-- Terminal outcome of one token-polling loop.

* `token t` — `access_token` returned (success);
* `httpError s b` — non-200 status: `device_auth.py` raises
  `RuntimeError("Failed to poll for access token: ...")`, `device_code_flow.py`
  prints `"Error polling token: ..."` and exits 1;
* `expired` — `device_auth.py`'s dedicated `expired_token` branch
  (`RuntimeError("The device code has expired. Restart the flow.")`);
* `providerError r` — the generic fatal branch for any other `error` value,
  carrying the full response `r` (`device_code_flow.py` prints the whole
  parsed object there);
* `missingAccessToken` — the `KeyError` from the unguarded
  `data["access_token"]` lookup when a 200 response has no `error` field and
  no `access_token` field;
* `exhausted` — the finite response script ran out (model artifact). -/
inductive PollResult where
  | token (t : String)
  | httpError (status : Nat) (body : String)
  | expired
  | providerError (r : TokenResponse)
  | missingAccessToken
  | exhausted
deriving DecidableEq

/-- One loop iteration either continues with a (possibly updated) interval or
terminates with a `PollResult`. -/
inductive Step where
  | next (interval : Int)
  | done (res : PollResult)
deriving DecidableEq

/-- Body of the polling loop of `poll_access_token` in `src/device_auth.py`
(lines 113-134), applied to the current `interval` and the iteration's
token-endpoint response. -/
def authStep (interval : Int) (r : TokenResponse) : Step :=
  if r.status ≠ 200 then
    .done (.httpError r.status r.body)
  else
    match r.error with
    | some err =>
      if err = "authorization_pending" then .next interval
      else if err = "slow_down" then .next (interval + 5)
      else if err = "expired_token" then .done .expired
      else .done (.providerError r)
    | none =>
      match r.access_token with
      | some t => .done (.token t)
      | none => .done .missingAccessToken

/-- Body of the polling loop of `device_code_flow` in
`src/device_code_flow.py` (lines 77-90): identical to `authStep` except that
there is no dedicated `expired_token` branch — it falls through to the generic
fatal branch (`print("Error:", token_data); sys.exit(1)`). -/
def flowStep (interval : Int) (r : TokenResponse) : Step :=
  if r.status ≠ 200 then
    .done (.httpError r.status r.body)
  else
    match r.error with
    | some err =>
      if err = "authorization_pending" then .next interval
      else if err = "slow_down" then .next (interval + 5)
      else .done (.providerError r)
    | none =>
      match r.access_token with
      | some t => .done (.token t)
      | none => .done .missingAccessToken

/-- The `while True` polling loop, shared shape of both files: each iteration
sleeps for the current interval (recorded in the ghost trace, first component)
and sends one token request, consuming one scripted response; the step
function decides whether the loop continues and with which interval. -/
def pollGo (step : Int → TokenResponse → Step) :
    Int → List TokenResponse → List Int × PollResult
  | _, [] => ([], .exhausted)
  | i, r :: rest =>
    match step i r with
    | .next j =>
      let p := pollGo step j rest
      (i :: p.1, p.2)
    | .done res => ([i], res)

/-- `poll_access_token` of `src/device_auth.py`: the loop starts from the
hard-coded `interval = 5` (line 101) — the interval field of the device-code
response is never passed in. -/
def poll_access_token (rs : List TokenResponse) : List Int × PollResult :=
  pollGo authStep 5 rs

/-- The polling loop of `src/device_code_flow.py`, started from
`interval = int(data.get("interval", 5))` (line 65). -/
def flowPoll (interval : Int) (rs : List TokenResponse) :
    List Int × PollResult :=
  pollGo flowStep interval rs

/-- A 200 response carrying `error = authorization_pending`. -/
def pendingResp : TokenResponse :=
  { status := 200, body := "", error := some "authorization_pending",
    error_description := none, access_token := none }

/-- A 200 response carrying `error = slow_down`. -/
def slowDownResp : TokenResponse :=
  { status := 200, body := "", error := some "slow_down",
    error_description := none, access_token := none }

/-- A 200 response carrying `error = expired_token`. -/
def expiredResp : TokenResponse :=
  { status := 200, body := "", error := some "expired_token",
    error_description := none, access_token := none }

/-- A 200 success response carrying the access token `t` and no `error`. -/
def successResp (t : String) : TokenResponse :=
  { status := 200, body := "", error := none,
    error_description := none, access_token := some t }

example :
    poll_access_token
      [pendingResp, slowDownResp, successResp "tok"] =
    ([5, 5, 10], .token "tok") := by
  decide

/-- Python's rendering of a value inside an f-string or `print`: `None` prints
as the string `"None"`, a present string prints as itself. -/
def optStr : Option String → String
  | some s => s
  | none => "None"

/-- Python's `a or b` on two optional strings, as used in
`info.get("verification_uri") or info.get("verification_uri_complete")`:
falls through to `b` when `a` is `None` or the empty (falsy) string. -/
def pythonOr (a b : Option String) : Option String :=
  match a with
  | some s => if s = "" then b else some s
  | none => b

/-- Abstraction of Python's `repr` of a string (the `!r` format used in
`device_auth.py`'s error messages): exact for strings containing no quote,
backslash or control character. -/
def pyRepr (s : String) : String :=
  "'" ++ s ++ "'"

/-- Abstract rendering of a parsed token-endpoint JSON object, as printed
whole by `device_code_flow.py`'s generic error branch
(`print("Error:", token_data, ...)`). We do not reproduce Python dict syntax,
but the rendering exposes exactly the fields the real print exposes —
including a present `access_token` value. -/
def dictRepr (r : TokenResponse) : String :=
  "error=" ++ optStr r.error ++ " error_description="
    ++ optStr r.error_description ++ " access_token=" ++ optStr r.access_token

/-- One outbound network request of a flow run; the identity request records
the `Authorization` header it carries. -/
inductive NetEvent where
  | deviceCodeReq
  | tokenReq
  | userReq (authHeader : String)
deriving DecidableEq

/-- Structured classification of a fatal flow outcome (the exception raised
in `device_auth.py`, or the `sys.exit(1)` / uncaught exception in
`device_code_flow.py`). -/
inductive AuthError where
  | deviceCodeHttp (status : Nat) (body : String)
  | pollHttp (status : Nat) (body : String)
  | expiredDevice
  | provider (r : TokenResponse)
  | keyError (key : String)
  | scriptExhausted
deriving DecidableEq

/-- `str(exc)` for the exceptions `authenticate_and_print_user` can raise,
printed by `main` in `src/device_auth.py` as
`"An error occurred during authentication: {exc}"`. (`str` of a `KeyError`
is the `repr` of the missing key; `scriptExhausted` is a model artifact and
never printed.) -/
def authExcMsg : AuthError → String
  | .deviceCodeHttp s b =>
    "Failed to request device code: HTTP " ++ toString s ++ ": " ++ pyRepr b
  | .pollHttp s b =>
    "Failed to poll for access token: HTTP " ++ toString s ++ ": " ++ pyRepr b
  | .expiredDevice => "The device code has expired. Restart the flow."
  | .provider r =>
    "Error polling for token: " ++ optStr r.error ++ ": "
      ++ optStr r.error_description
  | .keyError k => pyRepr k
  | .scriptExhausted => ""

/-- Observable result of one whole run of a script: outbound requests in
order, stdout and stderr lines in order, the process exit code, the obtained
access token (ghost observation), the ghost trace of slept intervals, and the
structured fatal error if any. Stderr holds only the lines the scripts print
explicitly; the traceback of an uncaught exception is represented by the
`err` field alone. With `err = some .scriptExhausted` the real process would
still be polling; exit code 1 there is a model artifact. -/
structure RunResult where
  netTrace : List NetEvent
  stdout : List String
  stderr : List String
  exitCode : Nat
  token : Option String
  sleeps : List Int
  err : Option AuthError
deriving DecidableEq

/-- The banner `authenticate_and_print_user` prints after reading
`user_code`, `verification_uri`, `expires_in` and `interval` and before
polling (lines 154-166 of `src/device_auth.py`). -/
def authBanner (uri : Option String) (uc : String) (e : Int) : List String :=
  ["",
   "=== GitHub Device Code Authentication ===",
   "Please visit " ++ optStr uri
     ++ " and enter the following code when prompted:",
   "\n    " ++ uc ++ "\n",
   "This code will expire in " ++ toString e
     ++ " seconds. Press Enter once you've submitted it.",
   "Waiting for authorization... this may take a few moments."]

/-- A run of `device_auth.py` that ended in the exception `e` before the
polling loop started (after printing `out`): `main` catches it, prints the
message on stderr and exits 1. Only the device-code request was sent. -/
def authFatalEarly (out : List String) (e : AuthError) : RunResult :=
  { netTrace := [.deviceCodeReq], stdout := out,
    stderr := ["An error occurred during authentication: " ++ authExcMsg e],
    exitCode := 1, token := none, sleeps := [], err := some e }

/-- A run of `device_auth.py` whose polling loop terminated fatally with `e`
after `n` token requests and sleep trace `sl`. -/
def authFatalPoll (out : List String) (n : Nat) (sl : List Int)
    (e : AuthError) : RunResult :=
  { netTrace := .deviceCodeReq :: List.replicate n .tokenReq, stdout := out,
    stderr := ["An error occurred during authentication: " ++ authExcMsg e],
    exitCode := 1, token := none, sleeps := sl, err := some e }

/-- Whole run of `src/device_auth.py` (`main` calling
`authenticate_and_print_user`), driven by the device-code response `info`,
the scripted token-endpoint responses `rs` and the identity-verification
response `ur`. Mirrors the source order: status check of the device-code
request; unguarded reads of `user_code`, `expires_in`, `interval` (a missing
field raises `KeyError`); banner; unguarded read of `device_code`;
`poll_access_token` (which starts from the hard-coded interval 5); on success
the identity request with header `"token " ++ t` and either the
`Authenticated as:` line or the non-fatal warning. -/
def authRun (info : DeviceCodeResponse) (rs : List TokenResponse)
    (ur : UserResponse) : RunResult :=
  if info.status ≠ 200 then
    { netTrace := [.deviceCodeReq], stdout := [],
      stderr := ["An error occurred during authentication: "
        ++ authExcMsg (.deviceCodeHttp info.status info.body)],
      exitCode := 1, token := none, sleeps := [],
      err := some (.deviceCodeHttp info.status info.body) }
  else
    match info.user_code with
    | none => authFatalEarly [] (.keyError "user_code")
    | some uc =>
      match info.expires_in with
      | none => authFatalEarly [] (.keyError "expires_in")
      | some e =>
        match info.interval with
        | none => authFatalEarly [] (.keyError "interval")
        | some _ivl =>
          let uri := pythonOr info.verification_uri
            info.verification_uri_complete
          let out := authBanner uri uc e
          match info.device_code with
          | none => authFatalEarly out (.keyError "device_code")
          | some _dc =>
            let p := poll_access_token rs
            match p.2 with
            | .token t =>
              let base := out ++ ["Successfully obtained an access token."]
              let net := .deviceCodeReq ::
                (List.replicate p.1.length .tokenReq
                  ++ [.userReq ("token " ++ t)])
              if ur.status = 200 then
                { netTrace := net,
                  stdout := base ++ ["Authenticated as: " ++ optStr ur.login],
                  stderr := [], exitCode := 0, token := some t,
                  sleeps := p.1, err := none }
              else
                { netTrace := net,
                  stdout := base ++ ["Warning: unable to verify token. HTTP "
                    ++ toString ur.status ++ ": " ++ ur.body],
                  stderr := [], exitCode := 0, token := some t,
                  sleeps := p.1, err := none }
            | .httpError s b =>
              authFatalPoll out p.1.length p.1 (.pollHttp s b)
            | .expired => authFatalPoll out p.1.length p.1 .expiredDevice
            | .providerError r => authFatalPoll out p.1.length p.1 (.provider r)
            | .missingAccessToken =>
              authFatalPoll out p.1.length p.1 (.keyError "access_token")
            | .exhausted =>
              { netTrace := .deviceCodeReq
                  :: List.replicate p.1.length .tokenReq,
                stdout := out, stderr := [], exitCode := 1, token := none,
                sleeps := p.1, err := some .scriptExhausted }

/-- A run of `device_code_flow.py` that crashed with an uncaught exception
`e` after printing `out` and before the first token request. -/
def flowFatalEarly (out : List String) (sl : List Int)
    (e : AuthError) : RunResult :=
  { netTrace := [.deviceCodeReq], stdout := out, stderr := [],
    exitCode := 1, token := none, sleeps := sl, err := some e }

/-- The two stdout lines `device_code_flow` prints before the polling loop:
the visit/code line and the `input` prompt. -/
def flowIntro (uri uc : String) : List String :=
  ["Visit " ++ uri ++ " and enter the code " ++ uc,
   "Press Enter after you have completed authorization..."]

/-- Whole run of `src/device_code_flow.py` (`device_code_flow`, lines
47-104), driven like `authRun`. Mirrors the source order: status check with
`"Error requesting device code:"` on stderr; f-string reads of
`verification_uri` and `user_code` (a missing field raises `KeyError` before
anything is printed); the `input` prompt;
`interval = int(data.get("interval", 5))`; the loop reads `device_code`
inside the request, so a missing `device_code` crashes after the first sleep
with no token request sent; the loop itself; on success the
`"Obtained access token."` line, the identity request, and either the
`Authenticated as` line or the non-fatal stderr warning, then exit 0. The
`.expired` case is unreachable for `flowStep` and mapped like the generic
branch. -/
def flowRun (info : DeviceCodeResponse) (rs : List TokenResponse)
    (ur : UserResponse) : RunResult :=
  if info.status ≠ 200 then
    { netTrace := [.deviceCodeReq], stdout := [],
      stderr := ["Error requesting device code: " ++ toString info.status
        ++ " " ++ info.body],
      exitCode := 1, token := none, sleeps := [],
      err := some (.deviceCodeHttp info.status info.body) }
  else
    match info.verification_uri with
    | none => flowFatalEarly [] [] (.keyError "verification_uri")
    | some uri =>
      match info.user_code with
      | none => flowFatalEarly [] [] (.keyError "user_code")
      | some uc =>
        let out := flowIntro uri uc
        let ivl := (info.interval).getD 5
        match info.device_code with
        | none => flowFatalEarly out [ivl] (.keyError "device_code")
        | some _dc =>
          let p := flowPoll ivl rs
          match p.2 with
          | .token t =>
            let base := out ++ ["Obtained access token."]
            let net := .deviceCodeReq ::
              (List.replicate p.1.length .tokenReq
                ++ [.userReq ("token " ++ t)])
            if ur.status = 200 then
              { netTrace := net,
                stdout := base ++ ["Authenticated as " ++ optStr ur.login],
                stderr := [], exitCode := 0, token := some t,
                sleeps := p.1, err := none }
            else
              { netTrace := net, stdout := base,
                stderr := ["Token verification failed: "
                  ++ toString ur.status ++ " " ++ ur.body],
                exitCode := 0, token := some t, sleeps := p.1, err := none }
          | .httpError s b =>
            { netTrace := .deviceCodeReq :: List.replicate p.1.length .tokenReq,
              stdout := out,
              stderr := ["Error polling token: " ++ toString s ++ " " ++ b],
              exitCode := 1, token := none, sleeps := p.1,
              err := some (.pollHttp s b) }
          | .expired =>
            { netTrace := .deviceCodeReq :: List.replicate p.1.length .tokenReq,
              stdout := out, stderr := [], exitCode := 1, token := none,
              sleeps := p.1, err := some .expiredDevice }
          | .providerError r =>
            { netTrace := .deviceCodeReq :: List.replicate p.1.length .tokenReq,
              stdout := out, stderr := ["Error: " ++ dictRepr r],
              exitCode := 1, token := none, sleeps := p.1,
              err := some (.provider r) }
          | .missingAccessToken =>
            { netTrace := .deviceCodeReq :: List.replicate p.1.length .tokenReq,
              stdout := out, stderr := [], exitCode := 1, token := none,
              sleeps := p.1, err := some (.keyError "access_token") }
          | .exhausted =>
            { netTrace := .deviceCodeReq :: List.replicate p.1.length .tokenReq,
              stdout := out, stderr := [], exitCode := 1, token := none,
              sleeps := p.1, err := some .scriptExhausted }

/-- A device-code response with status 200 and every field the scripts read
present: used to state properties of runs that get past the device-code
step. -/
def okInfo (dc uc uri : String) (e ivl : Int) : DeviceCodeResponse :=
  { status := 200, body := "", device_code := some dc, user_code := some uc,
    verification_uri := some uri, verification_uri_complete := none,
    expires_in := some e, interval := some ivl }

/-- Whatever the step decides, a loop entered with interval `i` sleeps `i`
first: the head of the sleep trace on a nonempty script is the entry
interval. -/
theorem pollGo_cons_head (step : Int → TokenResponse → Step) (i : Int)
    (r : TokenResponse) (rest : List TokenResponse) :
    ((pollGo step i (r :: rest)).1).head? = some i := by
  cases h : step i r <;> simp [pollGo, h]

/-- The scripted sequence of claim C1:
pending, pending, slow_down, pending, success. -/
def scriptedSeq (t : String) : List TokenResponse :=
  [pendingResp, pendingResp, slowDownResp, pendingResp, successResp t]

/-- C1: on the scripted sequence [authorization_pending,
authorization_pending, slow_down, authorization_pending, success], both
pollers perform exactly 5 sleep/request cycles, the interval slept during the
success iteration is the initial interval plus 5, and the returned token is
exactly the one carried by the fifth response. For `poll_access_token` the
initial interval is the hard-coded 5, so the final interval is 10. -/
theorem c1_scripted_sequence (i0 : Int) (t : String) :
    pollGo authStep i0 (scriptedSeq t) = ([i0, i0, i0, i0 + 5, i0 + 5], .token t)
    ∧ pollGo flowStep i0 (scriptedSeq t)
        = ([i0, i0, i0, i0 + 5, i0 + 5], .token t)
    ∧ (pollGo authStep i0 (scriptedSeq t)).1.length = 5
    ∧ (pollGo authStep i0 (scriptedSeq t)).1.getLast? = some (i0 + 5)
    ∧ poll_access_token (scriptedSeq t) = ([5, 5, 5, 10, 10], .token t) := by
  refine ⟨rfl, rfl, rfl, rfl, ?_⟩
  show pollGo authStep 5 (scriptedSeq t) = ([5, 5, 5, 10, 10], .token t)
  rfl

theorem authStep_of_pending (i : Int) (r : TokenResponse)
    (h200 : r.status = 200) (herr : r.error = some "authorization_pending") :
    authStep i r = .next i := by
  simp [authStep, h200, herr]

theorem flowStep_of_pending (i : Int) (r : TokenResponse)
    (h200 : r.status = 200) (herr : r.error = some "authorization_pending") :
    flowStep i r = .next i := by
  simp [flowStep, h200, herr]

theorem authStep_of_slow (i : Int) (r : TokenResponse)
    (h200 : r.status = 200) (herr : r.error = some "slow_down") :
    authStep i r = .next (i + 5) := by
  simp [authStep, h200, herr]

theorem flowStep_of_slow (i : Int) (r : TokenResponse)
    (h200 : r.status = 200) (herr : r.error = some "slow_down") :
    flowStep i r = .next (i + 5) := by
  simp [flowStep, h200, herr]

theorem authStep_of_expired (i : Int) (r : TokenResponse)
    (h200 : r.status = 200) (herr : r.error = some "expired_token") :
    authStep i r = .done .expired := by
  simp [authStep, h200, herr]

theorem flowStep_of_expired (i : Int) (r : TokenResponse)
    (h200 : r.status = 200) (herr : r.error = some "expired_token") :
    flowStep i r = .done (.providerError r) := by
  simp [flowStep, h200, herr]

theorem authStep_of_noToken (i : Int) (r : TokenResponse)
    (h200 : r.status = 200) (herr : r.error = none)
    (htok : r.access_token = none) :
    authStep i r = .done .missingAccessToken := by
  simp [authStep, h200, herr, htok]

theorem flowStep_of_noToken (i : Int) (r : TokenResponse)
    (h200 : r.status = 200) (herr : r.error = none)
    (htok : r.access_token = none) :
    flowStep i r = .done .missingAccessToken := by
  simp [flowStep, h200, herr, htok]

/-- C4: a 200 polling response carrying `error = authorization_pending`
makes both loops recurse on the remaining script with the same interval: the
iteration's outcome is exactly the outcome of the rest of the loop, the
iteration contributes one sleep of the unchanged interval, and no token is
produced by that response. -/
theorem c4_pending_frame (i : Int) (r : TokenResponse)
    (rest : List TokenResponse)
    (h200 : r.status = 200) (herr : r.error = some "authorization_pending") :
    pollGo authStep i (r :: rest)
      = (i :: (pollGo authStep i rest).1, (pollGo authStep i rest).2)
    ∧ pollGo flowStep i (r :: rest)
      = (i :: (pollGo flowStep i rest).1, (pollGo flowStep i rest).2) := by
  constructor
  · simp [pollGo, authStep_of_pending i r h200 herr]
  · simp [pollGo, flowStep_of_pending i r h200 herr]

theorem c4_pending_frame_witness :
    pollGo authStep 5 [pendingResp]
      = (5 :: (pollGo authStep 5 []).1, (pollGo authStep 5 []).2)
    ∧ pollGo flowStep 5 [pendingResp]
      = (5 :: (pollGo flowStep 5 []).1, (pollGo flowStep 5 []).2) :=
  c4_pending_frame 5 pendingResp [] rfl rfl

/-- C10: a 200 polling response with no `error` field and no `access_token`
field makes both loops hit the unguarded `data["access_token"]` lookup: the
loop neither returns a token nor continues — it terminates at that iteration
with the `KeyError` outcome, which is distinct from every `token` outcome. -/
theorem c10_missing_access_token (i : Int) (r : TokenResponse)
    (rest : List TokenResponse)
    (h200 : r.status = 200) (herr : r.error = none)
    (htok : r.access_token = none) :
    pollGo authStep i (r :: rest) = ([i], .missingAccessToken)
    ∧ pollGo flowStep i (r :: rest) = ([i], .missingAccessToken)
    ∧ (∀ t, (pollGo authStep i (r :: rest)).2 ≠ .token t)
    ∧ (∀ t, (pollGo flowStep i (r :: rest)).2 ≠ .token t) := by
  refine ⟨?_, ?_, ?_, ?_⟩ <;>
    simp [pollGo, authStep_of_noToken i r h200 herr htok,
      flowStep_of_noToken i r h200 herr htok]

theorem c10_missing_access_token_witness :
    pollGo authStep 5
        [{ status := 200, body := "", error := none,
           error_description := none, access_token := none }]
      = ([5], .missingAccessToken)
    ∧ pollGo flowStep 5
        [{ status := 200, body := "", error := none,
           error_description := none, access_token := none }]
      = ([5], .missingAccessToken)
    ∧ (∀ t, (pollGo authStep 5
        [{ status := 200, body := "", error := none,
           error_description := none, access_token := none }]).2 ≠ .token t)
    ∧ (∀ t, (pollGo flowStep 5
        [{ status := 200, body := "", error := none,
           error_description := none, access_token := none }]).2 ≠ .token t) :=
  c10_missing_access_token 5 _ [] rfl rfl rfl

/-- A 200 identity-verification response for the user `octocat`. -/
def ur0 : UserResponse :=
  { status := 200, body := "", login := some "octocat" }

/-- C5 counterexample: in `device_code_flow.py` a 200 response carrying
`error = expired_token` is handled by the generic provider-error exit
(`print("Error:", token_data); sys.exit(1)`), not by a distinct
"flow expired" outcome: the run's structured error is the generic
`provider` classification of the expired response and is not the distinct
`expiredDevice` classification — only `device_auth.py` produces the
latter. -/
theorem c5_flow_expired_not_distinct :
    (pollGo flowStep 5 [expiredResp]).2 = .providerError expiredResp
    ∧ (flowRun (okInfo "d" "u" "v" 900 5) [expiredResp] ur0).err
        = some (.provider expiredResp)
    ∧ some (AuthError.provider expiredResp) ≠ some AuthError.expiredDevice
    ∧ (pollGo authStep 5 [expiredResp]).2 = .expired := by
  refine ⟨rfl, ?_, by decide, rfl⟩
  rfl

/-- C5 as amended: a 200 polling response carrying `error = expired_token`
terminates both loops with a terminal failure and no access token is
returned; in `device_auth.py` the failure is the distinct expired outcome
("The device code has expired. Restart the flow."), while in
`device_code_flow.py` it goes through the generic provider-error exit. -/
theorem c5_expired_terminates (i : Int) (r : TokenResponse)
    (rest : List TokenResponse)
    (h200 : r.status = 200) (herr : r.error = some "expired_token") :
    pollGo authStep i (r :: rest) = ([i], .expired)
    ∧ pollGo flowStep i (r :: rest) = ([i], .providerError r)
    ∧ (∀ t, (pollGo authStep i (r :: rest)).2 ≠ .token t)
    ∧ (∀ t, (pollGo flowStep i (r :: rest)).2 ≠ .token t)
    ∧ PollResult.expired ≠ .providerError r := by
  refine ⟨?_, ?_, ?_, ?_, by simp⟩ <;>
    simp [pollGo, authStep_of_expired i r h200 herr,
      flowStep_of_expired i r h200 herr]

theorem c5_expired_terminates_witness :
    pollGo authStep 5 [expiredResp] = ([5], .expired)
    ∧ pollGo flowStep 5 [expiredResp] = ([5], .providerError expiredResp)
    ∧ (∀ t, (pollGo authStep 5 [expiredResp]).2 ≠ .token t)
    ∧ (∀ t, (pollGo flowStep 5 [expiredResp]).2 ≠ .token t)
    ∧ PollResult.expired ≠ .providerError expiredResp :=
  c5_expired_terminates 5 expiredResp [] rfl rfl

/-- Characterization of the continue case of `authStep`: the loop continues
only on a 200 response carrying `authorization_pending` (interval unchanged)
or `slow_down` (interval increased by exactly 5). -/
theorem authStep_next_char (i : Int) (r : TokenResponse) (j : Int)
    (h : authStep i r = .next j) :
    r.status = 200 ∧
      ((r.error = some "authorization_pending" ∧ j = i) ∨
       (r.error = some "slow_down" ∧ j = i + 5)) := by
  by_cases h200 : r.status = 200
  · rcases herr : r.error with _ | err
    · rcases htok : r.access_token with _ | t <;>
        simp [authStep, h200, herr, htok] at h
    · refine ⟨h200, ?_⟩
      by_cases hp : err = "authorization_pending"
      · subst hp
        simp [authStep, h200, herr] at h
        exact Or.inl ⟨rfl, h.symm⟩
      · by_cases hs : err = "slow_down"
        · subst hs
          simp [authStep, h200, herr] at h
          exact Or.inr ⟨rfl, h.symm⟩
        · by_cases he : err = "expired_token" <;>
            simp [authStep, h200, herr, hp, hs, he] at h
  · simp [authStep, h200] at h

/-- Characterization of the continue case of `flowStep`: identical to
`authStep_next_char`. -/
theorem flowStep_next_char (i : Int) (r : TokenResponse) (j : Int)
    (h : flowStep i r = .next j) :
    r.status = 200 ∧
      ((r.error = some "authorization_pending" ∧ j = i) ∨
       (r.error = some "slow_down" ∧ j = i + 5)) := by
  by_cases h200 : r.status = 200
  · rcases herr : r.error with _ | err
    · rcases htok : r.access_token with _ | t <;>
        simp [flowStep, h200, herr, htok] at h
    · refine ⟨h200, ?_⟩
      by_cases hp : err = "authorization_pending"
      · subst hp
        simp [flowStep, h200, herr] at h
        exact Or.inl ⟨rfl, h.symm⟩
      · by_cases hs : err = "slow_down"
        · subst hs
          simp [flowStep, h200, herr] at h
          exact Or.inr ⟨rfl, h.symm⟩
        · simp [flowStep, h200, herr, hp, hs] at h
  · simp [flowStep, h200] at h

/-- A step function whose continue case never decreases the interval yields a
monotone (never decreasing) sleep trace. -/
theorem pollGo_sleeps_chain (step : Int → TokenResponse → Step)
    (hmono : ∀ i r j, step i r = .next j → i ≤ j) :
    ∀ (rs : List TokenResponse) (i : Int),
      List.Chain' (· ≤ ·) (pollGo step i rs).1 := by
  intro rs
  induction rs with
  | nil => intro i; simp [pollGo]
  | cons r rest ih =>
    intro i
    cases h : step i r with
    | next j =>
      have hij := hmono i r j h
      rw [show (pollGo step i (r :: rest)).1 = i :: (pollGo step j rest).1
        from by simp [pollGo, h]]
      rw [List.chain'_cons']
      refine ⟨?_, ih j⟩
      intro b hb
      cases rest with
      | nil => simp [pollGo] at hb
      | cons r2 rest2 =>
        rw [pollGo_cons_head] at hb
        simp only [Option.mem_def, Option.some_inj] at hb
        omega
    | done res => simp [pollGo, h]

/-- After `n` scripted `slow_down` iterations the loop sleeps
`i + 5 * n` on the next iteration: the entry interval plus 5 for each
`slow_down` received. -/
theorem slow_replicate_mem (step : Int → TokenResponse → Step)
    (hstep : ∀ i, step i slowDownResp = .next (i + 5)) :
    ∀ (n : Nat) (i : Int),
      i + 5 * n ∈ (pollGo step i (List.replicate (n + 1) slowDownResp)).1 := by
  intro n
  induction n with
  | zero => intro i; simp [pollGo, hstep]
  | succ n ih =>
    intro i
    rw [List.replicate_succ]
    rw [show (pollGo step i
        (slowDownResp :: List.replicate (n + 1) slowDownResp)).1
      = i :: (pollGo step (i + 5) (List.replicate (n + 1) slowDownResp)).1
      from by simp [pollGo, hstep]]
    refine List.mem_cons.mpr (Or.inr ?_)
    rw [show ((n + 1 : Nat) : Int) = (n : Int) + 1 from by push_cast; ring]
    rw [show i + 5 * ((n : Int) + 1) = (i + 5) + 5 * n from by ring]
    exact ih (i + 5)

/-- C3: in both polling loops the interval never decreases along any run
(the sleep trace is sorted); the loop continues exactly on
`authorization_pending` (interval unchanged) and `slow_down` (interval
increased by exactly the fixed additive 5); and the interval is unbounded
under repeated `slow_down` responses: for every bound `B` some iteration of a
long enough all-`slow_down` script sleeps longer than `B`. -/
theorem c3_interval_monotonicity :
    (∀ (i : Int) (rs : List TokenResponse),
      List.Chain' (· ≤ ·) (pollGo authStep i rs).1)
    ∧ (∀ (i : Int) (rs : List TokenResponse),
      List.Chain' (· ≤ ·) (pollGo flowStep i rs).1)
    ∧ (∀ (i : Int) (r : TokenResponse) (j : Int), authStep i r = .next j →
        r.status = 200 ∧ i ≤ j ∧
          ((r.error = some "authorization_pending" ∧ j = i) ∨
           (r.error = some "slow_down" ∧ j = i + 5)))
    ∧ (∀ (i : Int) (r : TokenResponse) (j : Int), flowStep i r = .next j →
        r.status = 200 ∧ i ≤ j ∧
          ((r.error = some "authorization_pending" ∧ j = i) ∨
           (r.error = some "slow_down" ∧ j = i + 5)))
    ∧ (∀ (i B : Int), ∃ n : Nat,
        ∃ s ∈ (pollGo authStep i (List.replicate n slowDownResp)).1, B < s)
    ∧ (∀ (i B : Int), ∃ n : Nat,
        ∃ s ∈ (pollGo flowStep i (List.replicate n slowDownResp)).1, B < s) := by
  have hmonoA : ∀ (i : Int) (r : TokenResponse) (j : Int),
      authStep i r = .next j → i ≤ j := by
    intro i r j h
    rcases authStep_next_char i r j h with ⟨-, h' | h'⟩ <;> omega
  have hmonoF : ∀ (i : Int) (r : TokenResponse) (j : Int),
      flowStep i r = .next j → i ≤ j := by
    intro i r j h
    rcases flowStep_next_char i r j h with ⟨-, h' | h'⟩ <;> omega
  refine ⟨fun i rs => pollGo_sleeps_chain authStep hmonoA rs i,
    fun i rs => pollGo_sleeps_chain flowStep hmonoF rs i,
    ?_, ?_, ?_, ?_⟩
  · intro i r j h
    rcases authStep_next_char i r j h with ⟨h200, hc⟩
    exact ⟨h200, hmonoA i r j h, hc⟩
  · intro i r j h
    rcases flowStep_next_char i r j h with ⟨h200, hc⟩
    exact ⟨h200, hmonoF i r j h, hc⟩
  · intro i B
    refine ⟨(B - i).toNat + 2,
      i + 5 * (((B - i).toNat + 1 : Nat) : Int),
      slow_replicate_mem authStep (fun i' => authStep_of_slow i' _ rfl rfl)
        ((B - i).toNat + 1) i, ?_⟩
    omega
  · intro i B
    refine ⟨(B - i).toNat + 2,
      i + 5 * (((B - i).toNat + 1 : Nat) : Int),
      slow_replicate_mem flowStep (fun i' => flowStep_of_slow i' _ rfl rfl)
        ((B - i).toNat + 1) i, ?_⟩
    omega

theorem c3_interval_monotonicity_witness :
    slowDownResp.status = 200 ∧ (5 : Int) ≤ 10 ∧
      ((slowDownResp.error = some "authorization_pending" ∧ (10 : Int) = 5) ∨
       (slowDownResp.error = some "slow_down" ∧ (10 : Int) = 5 + 5)) :=
  c3_interval_monotonicity.2.2.1 5 slowDownResp 10 (by decide)

/-- A 200 device-code response like `okInfo` but with no `interval` field. -/
def okInfoNoInterval (dc uc uri : String) (e : Int) : DeviceCodeResponse :=
  { status := 200, body := "", device_code := some dc, user_code := some uc,
    verification_uri := some uri, verification_uri_complete := none,
    expires_in := some e, interval := none }

/-- C2 counterexample: with a device-code response whose `interval` field is
10, `device_auth.py`'s polling loop still sleeps 5 on its first iteration —
`poll_access_token` hard-codes `interval = 5` and the field
(`info["interval"]`, read by `authenticate_and_print_user`) is never passed
in. So at the start of the loop the interval does not equal the response's
interval field. -/
theorem c2_auth_ignores_interval_field :
    (okInfo "d" "u" "v" 900 10).interval = some 10
    ∧ (authRun (okInfo "d" "u" "v" 900 10) [successResp "T"] ur0).sleeps = [5]
    ∧ ((5 : Int) = 10 → False) := by
  refine ⟨rfl, rfl, by decide⟩

/-- C2 as amended: `device_code_flow.py` starts its polling loop at the
device-code response's `interval` field, defaulting to 5 when the field is
absent; `device_auth.py`'s `poll_access_token` always starts at 5 regardless
of the field (and `authenticate_and_print_user` crashes with a `KeyError`
when the field is absent, since it reads `info["interval"]` unguarded). -/
theorem c2_initial_interval
    (dc uc uri : String) (e ivl : Int) (r : TokenResponse)
    (rest : List TokenResponse) (ur : UserResponse) :
    (flowRun (okInfo dc uc uri e ivl) (r :: rest) ur).sleeps.head? = some ivl
    ∧ (flowRun (okInfoNoInterval dc uc uri e) (r :: rest) ur).sleeps.head?
        = some 5
    ∧ (authRun (okInfo dc uc uri e ivl) (r :: rest) ur).sleeps.head? = some 5
    ∧ (authRun (okInfoNoInterval dc uc uri e) (r :: rest) ur).err
        = some (.keyError "interval") := by
  refine ⟨?_, ?_, ?_, rfl⟩
  · rcases h : (pollGo flowStep ivl (r :: rest)).2 <;>
      by_cases hu : ur.status = 200 <;>
        simp [flowRun, okInfo, flowPoll, h, hu, pollGo_cons_head]
  · rcases h : (pollGo flowStep 5 (r :: rest)).2 <;>
      by_cases hu : ur.status = 200 <;>
        simp [flowRun, okInfoNoInterval, flowPoll, h, hu, pollGo_cons_head]
  · rcases h : (pollGo authStep 5 (r :: rest)).2 <;>
      by_cases hu : ur.status = 200 <;>
        simp [authRun, okInfo, poll_access_token, authFatalPoll,
          authFatalEarly, h, hu, pollGo_cons_head]

/-- A polling response on which the loop continues: status 200 carrying
`authorization_pending` or `slow_down`. -/
def continuesResp (r : TokenResponse) : Prop :=
  r.status = 200 ∧
    (r.error = some "authorization_pending" ∨ r.error = some "slow_down")

instance (r : TokenResponse) : Decidable (continuesResp r) := by
  unfold continuesResp; infer_instance

theorem authStep_of_continues (i : Int) (r : TokenResponse)
    (h : continuesResp r) : ∃ j, authStep i r = .next j := by
  rcases h with ⟨h200, herr | herr⟩
  · exact ⟨i, authStep_of_pending i r h200 herr⟩
  · exact ⟨i + 5, authStep_of_slow i r h200 herr⟩

theorem authStep_of_non200 (i : Int) (r : TokenResponse)
    (h : r.status ≠ 200) :
    authStep i r = .done (.httpError r.status r.body) := by
  simp [authStep, h]

/-- After any prefix of continue responses, a non-200 polling response stops
the loop at once with the HTTP-error outcome carrying its status and body:
exactly one request is sent for it (`pre.length + 1` in total) and nothing
after it is consumed. -/
theorem pollGo_auth_http_stop (i : Int) (pre : List TokenResponse)
    (bad : TokenResponse) (post : List TokenResponse)
    (hpre : ∀ r ∈ pre, continuesResp r) (hbad : bad.status ≠ 200) :
    ∃ tr, pollGo authStep i (pre ++ bad :: post)
        = (tr, .httpError bad.status bad.body)
      ∧ tr.length = pre.length + 1 := by
  induction pre generalizing i with
  | nil =>
    exact ⟨[i], by simp [pollGo, authStep_of_non200 i bad hbad], rfl⟩
  | cons r pre' ih =>
    obtain ⟨j, hj⟩ :=
      authStep_of_continues i r (hpre r (List.mem_cons_self r pre'))
    obtain ⟨tr, htr, hlen⟩ :=
      ih j (fun r' hr' => hpre r' (List.mem_cons_of_mem r hr'))
    refine ⟨i :: tr, ?_, by simp [hlen]⟩
    simp [pollGo, hj, htr]

/-- C6: a non-2xx HTTP status is fatal with no retry and no further network
calls. At the device-code step the whole run of `device_auth.py` stops after
that single request, with the structured error carrying the status and the
response body verbatim. At any token-polling iteration (after any prefix of
pending/slow-down responses) the loop stops at that iteration with the
HTTP-error outcome carrying the status and body; lifted to the whole run,
exactly `pre.length + 1` token requests are sent, no identity request
follows, and the run exits 1 with that error. -/
theorem c6_non2xx_fatal :
    (∀ (info : DeviceCodeResponse) (rs : List TokenResponse)
        (ur : UserResponse), ¬ (200 ≤ info.status ∧ info.status < 300) →
      authRun info rs ur =
        { netTrace := [.deviceCodeReq], stdout := [],
          stderr := ["An error occurred during authentication: "
            ++ authExcMsg (.deviceCodeHttp info.status info.body)],
          exitCode := 1, token := none, sleeps := [],
          err := some (.deviceCodeHttp info.status info.body) })
    ∧ (∀ (i : Int) (pre : List TokenResponse) (bad : TokenResponse)
        (post : List TokenResponse),
        (∀ r ∈ pre, continuesResp r) →
        ¬ (200 ≤ bad.status ∧ bad.status < 300) →
        ∃ tr, pollGo authStep i (pre ++ bad :: post)
            = (tr, .httpError bad.status bad.body)
          ∧ tr.length = pre.length + 1)
    ∧ (∀ (dc uc uri : String) (e ivl : Int) (pre : List TokenResponse)
        (bad : TokenResponse) (post : List TokenResponse) (ur : UserResponse),
        (∀ r ∈ pre, continuesResp r) →
        ¬ (200 ≤ bad.status ∧ bad.status < 300) →
        (authRun (okInfo dc uc uri e ivl) (pre ++ bad :: post) ur).netTrace
            = .deviceCodeReq :: List.replicate (pre.length + 1) .tokenReq
          ∧ (authRun (okInfo dc uc uri e ivl) (pre ++ bad :: post) ur).exitCode
            = 1
          ∧ (authRun (okInfo dc uc uri e ivl) (pre ++ bad :: post) ur).err
            = some (.pollHttp bad.status bad.body)
          ∧ (authRun (okInfo dc uc uri e ivl) (pre ++ bad :: post) ur).token
            = none) := by
  have hne : ∀ s : Nat, ¬ (200 ≤ s ∧ s < 300) → s ≠ 200 := by
    intro s h; omega
  refine ⟨?_, ?_, ?_⟩
  · intro info rs ur h
    simp [authRun, hne info.status h]
  · intro i pre bad post hpre hbad
    exact pollGo_auth_http_stop i pre bad post hpre (hne bad.status hbad)
  · intro dc uc uri e ivl pre bad post ur hpre hbad
    obtain ⟨tr, htr, hlen⟩ :=
      pollGo_auth_http_stop 5 pre bad post hpre (hne bad.status hbad)
    have hp : poll_access_token (pre ++ bad :: post)
        = (tr, .httpError bad.status bad.body) := htr
    refine ⟨?_, ?_, ?_, ?_⟩ <;>
      simp [authRun, okInfo, hp, authFatalPoll, hlen]

theorem c6_non2xx_fatal_witness :
    (authRun
        { status := 500, body := "boom", device_code := none,
          user_code := none, verification_uri := none,
          verification_uri_complete := none, expires_in := none,
          interval := none } [] ur0 =
      { netTrace := [.deviceCodeReq], stdout := [],
        stderr := ["An error occurred during authentication: "
          ++ authExcMsg (.deviceCodeHttp 500 "boom")],
        exitCode := 1, token := none, sleeps := [],
        err := some (.deviceCodeHttp 500 "boom") })
    ∧ (∃ tr, pollGo authStep 5
          ([pendingResp] ++
            ({ status := 503, body := "oops", error := none,
               error_description := none,
               access_token := none } : TokenResponse) :: [])
          = (tr, .httpError 503 "oops")
        ∧ tr.length = [pendingResp].length + 1) := by
  constructor
  · exact c6_non2xx_fatal.1 _ [] ur0 (by decide)
  · exact c6_non2xx_fatal.2.1 5 [pendingResp] _ [] (by decide) (by decide)

/-- C7: when the polling loop has produced an access token and the
identity-verification response has any status other than 200, both scripts
still finish with exit code 0 and the obtained token unchanged: the failure
is reported as a warning line carrying the status and body
(`device_auth.py` on stdout, `device_code_flow.py` on stderr) and is never
escalated to a fatal error. -/
theorem c7_verify_failure_nonfatal
    (dc uc uri : String) (e ivl : Int) (rs : List TokenResponse)
    (ur : UserResponse) (tr : List Int) (t : String)
    (hur : ur.status ≠ 200) :
    (pollGo authStep 5 rs = (tr, .token t) →
      (authRun (okInfo dc uc uri e ivl) rs ur).exitCode = 0
      ∧ (authRun (okInfo dc uc uri e ivl) rs ur).token = some t
      ∧ ("Warning: unable to verify token. HTTP " ++ toString ur.status
          ++ ": " ++ ur.body) ∈ (authRun (okInfo dc uc uri e ivl) rs ur).stdout
      ∧ (authRun (okInfo dc uc uri e ivl) rs ur).err = none)
    ∧ (pollGo flowStep ivl rs = (tr, .token t) →
      (flowRun (okInfo dc uc uri e ivl) rs ur).exitCode = 0
      ∧ (flowRun (okInfo dc uc uri e ivl) rs ur).token = some t
      ∧ ("Token verification failed: " ++ toString ur.status ++ " "
          ++ ur.body) ∈ (flowRun (okInfo dc uc uri e ivl) rs ur).stderr
      ∧ (flowRun (okInfo dc uc uri e ivl) rs ur).err = none) := by
  constructor
  · intro hp
    have hp' : poll_access_token rs = (tr, .token t) := hp
    refine ⟨?_, ?_, ?_, ?_⟩ <;> simp [authRun, okInfo, hp', hur]
  · intro hp
    have hp' : flowPoll ivl rs = (tr, .token t) := hp
    refine ⟨?_, ?_, ?_, ?_⟩ <;> simp [flowRun, okInfo, hp', hur]

theorem c7_verify_failure_nonfatal_witness :
    ((authRun (okInfo "d" "u" "v" 900 5) [successResp "T"]
        { status := 401, body := "Unauthorized", login := none }).exitCode = 0
      ∧ (authRun (okInfo "d" "u" "v" 900 5) [successResp "T"]
          { status := 401, body := "Unauthorized", login := none }).token
        = some "T"
      ∧ ("Warning: unable to verify token. HTTP " ++ toString 401
          ++ ": " ++ "Unauthorized")
        ∈ (authRun (okInfo "d" "u" "v" 900 5) [successResp "T"]
            { status := 401, body := "Unauthorized", login := none }).stdout
      ∧ (authRun (okInfo "d" "u" "v" 900 5) [successResp "T"]
          { status := 401, body := "Unauthorized", login := none }).err
        = none)
    ∧ ((flowRun (okInfo "d" "u" "v" 900 5) [successResp "T"]
        { status := 401, body := "Unauthorized", login := none }).exitCode = 0
      ∧ (flowRun (okInfo "d" "u" "v" 900 5) [successResp "T"]
          { status := 401, body := "Unauthorized", login := none }).token
        = some "T"
      ∧ ("Token verification failed: " ++ toString 401 ++ " "
          ++ "Unauthorized")
        ∈ (flowRun (okInfo "d" "u" "v" 900 5) [successResp "T"]
            { status := 401, body := "Unauthorized", login := none }).stderr
      ∧ (flowRun (okInfo "d" "u" "v" 900 5) [successResp "T"]
          { status := 401, body := "Unauthorized", login := none }).err
        = none) :=
  ⟨(c7_verify_failure_nonfatal "d" "u" "v" 900 5 [successResp "T"]
      { status := 401, body := "Unauthorized", login := none } [5] "T"
      (by decide)).1 (by decide),
   (c7_verify_failure_nonfatal "d" "u" "v" 900 5 [successResp "T"]
      { status := 401, body := "Unauthorized", login := none } [5] "T"
      (by decide)).2 (by decide)⟩

/-- The two loop bodies agree on every response except a 200
`expired_token` response, where `device_auth.py` stops with the distinct
expired outcome and `device_code_flow.py` with its generic provider-error
exit. -/
theorem flowStep_eq_or_expired (i : Int) (r : TokenResponse) :
    flowStep i r = authStep i r ∨
      (r.status = 200 ∧ r.error = some "expired_token" ∧
        authStep i r = .done .expired ∧
        flowStep i r = .done (.providerError r)) := by
  by_cases h200 : r.status = 200
  · rcases herr : r.error with _ | err
    · left
      rcases htok : r.access_token with _ | t <;>
        simp [authStep, flowStep, h200, herr, htok]
    · by_cases hp : err = "authorization_pending"
      · left; simp [authStep, flowStep, h200, herr, hp]
      · by_cases hs : err = "slow_down"
        · left; simp [authStep, flowStep, h200, herr, hp, hs]
        · by_cases he : err = "expired_token"
          · right
            subst he
            exact ⟨h200, rfl, authStep_of_expired i r h200 herr,
              flowStep_of_expired i r h200 herr⟩
          · left; simp [authStep, flowStep, h200, herr, hp, hs, he]
  · left; simp [authStep, flowStep, h200]

/-- Identifies `device_auth.py`'s distinct expired outcome with
`device_code_flow.py`'s generic exit on an `expired_token` response; leaves
every other outcome unchanged. -/
def collapseExpired : PollResult → PollResult
  | .expired => .expired
  | .providerError r =>
    if r.error = some "expired_token" then .expired else .providerError r
  | x => x

theorem collapseExpired_token (x : PollResult) (t : String) :
    collapseExpired x = .token t ↔ x = .token t := by
  cases x <;> simp [collapseExpired]
  split_ifs <;> simp

/-- Started from the same interval and fed the same responses, the two
polling loops produce the same sleep trace and, up to `collapseExpired`, the
same terminal outcome. -/
theorem pollGo_flow_auth_agree :
    ∀ (rs : List TokenResponse) (i : Int),
      (pollGo flowStep i rs).1 = (pollGo authStep i rs).1
      ∧ collapseExpired (pollGo flowStep i rs).2
        = collapseExpired (pollGo authStep i rs).2 := by
  intro rs
  induction rs with
  | nil => intro i; exact ⟨rfl, rfl⟩
  | cons r rest ih =>
    intro i
    rcases flowStep_eq_or_expired i r with heq | ⟨h200, herr, hA, hF⟩
    · cases hs : authStep i r with
      | next j =>
        have hf : flowStep i r = .next j := by rw [heq, hs]
        refine ⟨?_, ?_⟩ <;> simp [pollGo, hs, hf, (ih j).1, (ih j).2]
      | done res =>
        have hf : flowStep i r = .done res := by rw [heq, hs]
        simp [pollGo, hs, hf]
    · simp [pollGo, hA, hF, collapseExpired, herr]

/-- C8 counterexample: the same device-code response (with `interval` field
10) and the same single success token response give the two scripts
different polling intervals at the first iteration (5 in `device_auth.py`,
10 in `device_code_flow.py`); and on an `expired_token` response the two
runs end with different terminal-failure classifications. So the two files
do not implement the same procedure at equal observations. -/
theorem c8_loops_differ :
    (authRun (okInfo "d" "u" "v" 900 10) [successResp "T"] ur0).sleeps = [5]
    ∧ (flowRun (okInfo "d" "u" "v" 900 10) [successResp "T"] ur0).sleeps
      = [10]
    ∧ ([5] : List Int) ≠ [10]
    ∧ (authRun (okInfo "d" "u" "v" 900 5) [expiredResp] ur0).err
      = some .expiredDevice
    ∧ (flowRun (okInfo "d" "u" "v" 900 5) [expiredResp] ur0).err
      = some (.provider expiredResp)
    ∧ AuthError.expiredDevice ≠ AuthError.provider expiredResp :=
  ⟨rfl, rfl, by decide, rfl, rfl, by decide⟩

/-- C8 as amended: started from the same initial interval and fed the same
token-endpoint responses, the two polling loops perform the same number of
iterations, sleep the same interval at every iteration, and return the same
token on success; their terminal outcomes agree up to `collapseExpired`
(`device_auth.py` alone gives `expired_token` a distinct classification;
both still fail fatally there). The loops' initial intervals themselves
agree only when the device-code response's interval field is 5, since
`poll_access_token` hard-codes 5 (see `c2_auth_ignores_interval_field`). -/
theorem c8_poll_equivalence (i : Int) (rs : List TokenResponse) :
    (pollGo flowStep i rs).1 = (pollGo authStep i rs).1
    ∧ (pollGo flowStep i rs).1.length = (pollGo authStep i rs).1.length
    ∧ collapseExpired (pollGo flowStep i rs).2
      = collapseExpired (pollGo authStep i rs).2
    ∧ (∀ t, (pollGo flowStep i rs).2 = .token t
        ↔ (pollGo authStep i rs).2 = .token t) := by
  obtain ⟨h1, h2⟩ := pollGo_flow_auth_agree rs i
  refine ⟨h1, by rw [h1], h2, ?_⟩
  intro t
  rw [← collapseExpired_token (pollGo flowStep i rs).2 t,
    ← collapseExpired_token (pollGo authStep i rs).2 t, h2]

/-- Replace the value of a present `access_token` field, leaving everything
else (status, raw body, error fields, absence of the token) unchanged: two
scripts `rs.map (setTok t₁)` and `rs.map (setTok t₂)` are "two runs differing
only in the token value". -/
def setTok (t : String) (r : TokenResponse) : TokenResponse :=
  { r with access_token := r.access_token.map fun _ => t }

/-- How a poll outcome changes when every `access_token` value in the script
is replaced by `t`. -/
def retok (t : String) : PollResult → PollResult
  | .token _ => .token t
  | .providerError r => .providerError (setTok t r)
  | x => x

theorem authStep_setTok (i : Int) (t : String) (r : TokenResponse) :
    authStep i (setTok t r) =
      match authStep i r with
      | .next j => .next j
      | .done res => .done (retok t res) := by
  by_cases h200 : r.status = 200
  · rcases herr : r.error with _ | err
    · rcases htok : r.access_token with _ | x <;>
        simp [authStep, setTok, retok, h200, herr, htok]
    · by_cases hp : err = "authorization_pending"
      · simp [authStep, setTok, retok, h200, herr, hp]
      · by_cases hs : err = "slow_down"
        · simp [authStep, setTok, retok, h200, herr, hp, hs]
        · by_cases he : err = "expired_token" <;>
            simp [authStep, setTok, retok, h200, herr, hp, hs, he]
  · simp [authStep, setTok, retok, h200]

theorem flowStep_setTok (i : Int) (t : String) (r : TokenResponse) :
    flowStep i (setTok t r) =
      match flowStep i r with
      | .next j => .next j
      | .done res => .done (retok t res) := by
  by_cases h200 : r.status = 200
  · rcases herr : r.error with _ | err
    · rcases htok : r.access_token with _ | x <;>
        simp [flowStep, setTok, retok, h200, herr, htok]
    · by_cases hp : err = "authorization_pending"
      · simp [flowStep, setTok, retok, h200, herr, hp]
      · by_cases hs : err = "slow_down"
        · simp [flowStep, setTok, retok, h200, herr, hp, hs]
        · simp [flowStep, setTok, retok, h200, herr, hp, hs]
  · simp [flowStep, setTok, retok, h200]

/-- Replacing every token value in the script leaves the sleep trace
unchanged and maps the outcome through `retok`. -/
theorem pollGo_auth_setTok (t : String) :
    ∀ (rs : List TokenResponse) (i : Int),
      pollGo authStep i (rs.map (setTok t))
        = ((pollGo authStep i rs).1, retok t (pollGo authStep i rs).2) := by
  intro rs
  induction rs with
  | nil => intro i; simp [pollGo, retok]
  | cons r rest ih =>
    intro i
    cases hs : authStep i r with
    | next j =>
      have h2 : authStep i (setTok t r) = .next j := by
        rw [authStep_setTok, hs]
      simp [pollGo, hs, h2, ih j]
    | done res =>
      have h2 : authStep i (setTok t r) = .done (retok t res) := by
        rw [authStep_setTok, hs]
      simp [pollGo, hs, h2]

theorem pollGo_flow_setTok (t : String) :
    ∀ (rs : List TokenResponse) (i : Int),
      pollGo flowStep i (rs.map (setTok t))
        = ((pollGo flowStep i rs).1, retok t (pollGo flowStep i rs).2) := by
  intro rs
  induction rs with
  | nil => intro i; simp [pollGo, retok]
  | cons r rest ih =>
    intro i
    cases hs : flowStep i r with
    | next j =>
      have h2 : flowStep i (setTok t r) = .next j := by
        rw [flowStep_setTok, hs]
      simp [pollGo, hs, h2, ih j]
    | done res =>
      have h2 : flowStep i (setTok t r) = .done (retok t res) := by
        rw [flowStep_setTok, hs]
      simp [pollGo, hs, h2]

/-- C9: the access token never influences console output, and is used
exactly as the bearer-style credential of the identity request.
Part 1: for `device_auth.py`, two runs whose token-endpoint scripts differ
only in the access-token values (`rs.map (setTok t₁)` vs `rs.map (setTok t₂)`)
produce identical stdout, identical stderr and identical exit codes —
unconditionally, so in particular for every successful flow.
Part 2: the same for `device_code_flow.py` on successful flows (its generic
error branch prints the whole parsed response object, which is why success
is assumed; a successful run never reaches that branch).
Part 3: on success the obtained token `t` appears in the network trace as
the identity request's `Authorization` header value `"token " ++ t`, in both
scripts. -/
theorem c9_token_confidential :
    (∀ (info : DeviceCodeResponse) (rs : List TokenResponse)
        (ur : UserResponse) (t₁ t₂ : String),
      (authRun info (rs.map (setTok t₁)) ur).stdout
          = (authRun info (rs.map (setTok t₂)) ur).stdout
        ∧ (authRun info (rs.map (setTok t₁)) ur).stderr
          = (authRun info (rs.map (setTok t₂)) ur).stderr
        ∧ (authRun info (rs.map (setTok t₁)) ur).exitCode
          = (authRun info (rs.map (setTok t₂)) ur).exitCode)
    ∧ (∀ (info : DeviceCodeResponse) (rs : List TokenResponse)
        (ur : UserResponse) (t₁ t₂ x : String),
        (pollGo flowStep (info.interval.getD 5) rs).2 = .token x →
        (flowRun info (rs.map (setTok t₁)) ur).stdout
            = (flowRun info (rs.map (setTok t₂)) ur).stdout
          ∧ (flowRun info (rs.map (setTok t₁)) ur).stderr
            = (flowRun info (rs.map (setTok t₂)) ur).stderr
          ∧ (flowRun info (rs.map (setTok t₁)) ur).exitCode
            = (flowRun info (rs.map (setTok t₂)) ur).exitCode)
    ∧ (∀ (dc uc uri : String) (e ivl : Int) (rs : List TokenResponse)
        (ur : UserResponse) (tr : List Int) (t : String),
        (pollGo authStep 5 rs = (tr, .token t) →
          NetEvent.userReq ("token " ++ t)
            ∈ (authRun (okInfo dc uc uri e ivl) rs ur).netTrace)
        ∧ (pollGo flowStep ivl rs = (tr, .token t) →
          NetEvent.userReq ("token " ++ t)
            ∈ (flowRun (okInfo dc uc uri e ivl) rs ur).netTrace)) := by
  refine ⟨?_, ?_, ?_⟩
  · intro info rs ur t₁ t₂
    by_cases h200 : info.status = 200
    · rcases huc : info.user_code with _ | uc
      · simp [authRun, h200, huc]
      rcases hexp : info.expires_in with _ | e
      · simp [authRun, h200, huc, hexp]
      rcases hivl : info.interval with _ | ivl
      · simp [authRun, h200, huc, hexp, hivl]
      rcases hdc : info.device_code with _ | dc
      · simp [authRun, h200, huc, hexp, hivl, hdc]
      have hp₁ : poll_access_token (rs.map (setTok t₁))
          = ((poll_access_token rs).1, retok t₁ (poll_access_token rs).2) :=
        pollGo_auth_setTok t₁ rs 5
      have hp₂ : poll_access_token (rs.map (setTok t₂))
          = ((poll_access_token rs).1, retok t₂ (poll_access_token rs).2) :=
        pollGo_auth_setTok t₂ rs 5
      rcases hres : (poll_access_token rs).2 <;>
        by_cases hu : ur.status = 200 <;>
          simp [authRun, h200, huc, hexp, hivl, hdc, hp₁, hp₂, hres, retok,
            authFatalPoll, authExcMsg, setTok, hu]
    · simp [authRun, h200]
  · intro info rs ur t₁ t₂ x hx
    by_cases h200 : info.status = 200
    · rcases huri : info.verification_uri with _ | uri
      · simp [flowRun, h200, huri]
      rcases huc : info.user_code with _ | uc
      · simp [flowRun, h200, huri, huc]
      rcases hdc : info.device_code with _ | dc
      · simp [flowRun, h200, huri, huc, hdc]
      have hp₁ : flowPoll (info.interval.getD 5) (rs.map (setTok t₁))
          = ((flowPoll (info.interval.getD 5) rs).1,
             retok t₁ (flowPoll (info.interval.getD 5) rs).2) :=
        pollGo_flow_setTok t₁ rs (info.interval.getD 5)
      have hp₂ : flowPoll (info.interval.getD 5) (rs.map (setTok t₂))
          = ((flowPoll (info.interval.getD 5) rs).1,
             retok t₂ (flowPoll (info.interval.getD 5) rs).2) :=
        pollGo_flow_setTok t₂ rs (info.interval.getD 5)
      have hx' : (flowPoll (info.interval.getD 5) rs).2 = .token x := hx
      by_cases hu : ur.status = 200 <;>
        simp [flowRun, h200, huri, huc, hdc, hp₁, hp₂, hx', retok, hu]
    · simp [flowRun, h200]
  · intro dc uc uri e ivl rs ur tr t
    constructor
    · intro hp
      have hp' : poll_access_token rs = (tr, .token t) := hp
      by_cases hu : ur.status = 200 <;>
        simp [authRun, okInfo, hp', hu]
    · intro hp
      have hp' : flowPoll ivl rs = (tr, .token t) := hp
      by_cases hu : ur.status = 200 <;>
        simp [flowRun, okInfo, hp', hu]

theorem c9_token_confidential_witness :
    ((flowRun (okInfo "d" "u" "v" 900 5)
          ([successResp "A"].map (setTok "T1")) ur0).stdout
        = (flowRun (okInfo "d" "u" "v" 900 5)
            ([successResp "A"].map (setTok "T2")) ur0).stdout
      ∧ (flowRun (okInfo "d" "u" "v" 900 5)
            ([successResp "A"].map (setTok "T1")) ur0).stderr
        = (flowRun (okInfo "d" "u" "v" 900 5)
            ([successResp "A"].map (setTok "T2")) ur0).stderr
      ∧ (flowRun (okInfo "d" "u" "v" 900 5)
            ([successResp "A"].map (setTok "T1")) ur0).exitCode
        = (flowRun (okInfo "d" "u" "v" 900 5)
            ([successResp "A"].map (setTok "T2")) ur0).exitCode)
    ∧ NetEvent.userReq ("token " ++ "T")
        ∈ (authRun (okInfo "d" "u" "v" 900 5) [successResp "T"] ur0).netTrace
    ∧ NetEvent.userReq ("token " ++ "T")
        ∈ (flowRun (okInfo "d" "u" "v" 900 5) [successResp "T"] ur0).netTrace :=
  ⟨c9_token_confidential.2.1 (okInfo "d" "u" "v" 900 5) [successResp "A"]
      ur0 "T1" "T2" "A" (by decide),
   (c9_token_confidential.2.2 "d" "u" "v" 900 5 [successResp "T"] ur0 [5]
      "T").1 (by decide),
   (c9_token_confidential.2.2 "d" "u" "v" 900 5 [successResp "T"] ur0 [5]
      "T").2 (by decide)⟩
